import Mathlib

/-!
Shallow embedding of `src/desafio_v2.py`, a small retail-banking ledger.

Modelling conventions:
* Monetary amounts (Python floats read from user input, used only with
  `+`, `-` and order comparisons) are embedded as rationals `ℚ`.
* Each core operation prints exactly one message and possibly returns a
  value; an operation is embedded as a pure function returning
  `(return value, printed message, updated state)`.  The message strings
  are the exact strings of the source, so the "failure reason" of the
  spec is the message component.
* Timestamps: `Historico.adicionar_transacao` stamps each record with
  `datetime.utcnow()` and `transacoes_do_dia` compares only the date
  component after a `strftime`/`strptime` round trip (which preserves the
  date).  We embed the date as an abstract day index `data : Nat`, and
  pass the current day `hoje : Nat` explicitly to the operations that
  read the clock.
* Python dynamic dispatch over the class hierarchy `Conta` /
  `ContaCorrente` is embedded as the sum type `ContaObj`; `ContaCorrente`
  inherits `depositar` from `Conta` (it overrides only `sacar`), so the
  `contaCorrente` branch of `ContaObj.depositar` calls `Conta.depositar`.
* The `cliente` back-reference stored in `Conta.__init__` is never read
  by any core operation, so it is omitted from the `Conta` structure;
  `Cliente.realizar_transacao` keeps its (unused) `self` parameter.
* Python methods return `None` (no `return` statement, or bare `return`);
  that return value is embedded as `Unit`.
-/

namespace Banco

/-- Exact message printed by `Conta.sacar` when `valor > saldo` (line 106). -/
def msg_saldo_insuficiente : String := "\nOperação falhou! Você não tem saldo suficiente."

/-- Exact message printed by `Conta.sacar` on success (line 110). -/
def msg_saque_sucesso : String := "\n=== Saque realizado com sucesso! ==="

/-- Exact message printed by `Conta.sacar` / `Conta.depositar` when the amount is invalid (lines 114, 124). -/
def msg_valor_invalido : String := "\nOperação falhou! O valor informado é inválido."

/-- Exact message printed by `Conta.depositar` on success (line 122). -/
def msg_deposito_sucesso : String := "\n=== Depósito realizado com sucesso! ==="

/-- Exact message printed by `ContaCorrente.sacar` when the amount exceeds the ceiling (line 151). -/
def msg_limite_saque : String := "\nOperação falhou! O valor do saque excede o limite."

/-- Exact message printed by `ContaCorrente.sacar` when the withdrawal count is exhausted (line 154). -/
def msg_max_saques : String := "\nOperação falhou! Número máximo de saques excedido."

/-- Exact message printed by `Cliente.realizar_transacao` when the daily cap is hit (line 46). -/
def msg_limite_diario : String := "\nVocê excedeu o número de transações permitidas para hoje!"

/-- One entry of `Historico._transacoes`: the dict
`{"tipo": class name, "valor": amount, "data": timestamp}` appended by
`adicionar_transacao` (lines 182-188), with the date component of the
timestamp embedded as the day index `data`. -/
structure Registro where
  tipo : String
  valor : ℚ
  data : Nat
deriving DecidableEq

/-- `Historico` (lines 172-204): the per-account append-only transaction log. -/
structure Historico where
  transacoes : List Registro
deriving DecidableEq

/-- `Transacao` with its two concrete subclasses `Saque` (lines 218-231)
and `Deposito` (lines 234-247), each holding its immutable `valor`. -/
inductive Transacao where
  | Saque (valor : ℚ)
  | Deposito (valor : ℚ)
deriving DecidableEq

/-- `transacao.valor` (property of both subclasses). -/
def Transacao.valor : Transacao → ℚ
  | .Saque v => v
  | .Deposito v => v

/-- `transacao.__class__.__name__`, used as the `"tipo"` tag of a record
(line 184) and as `Saque.__name__` in `ContaCorrente.sacar` (line 144). -/
def Transacao.tipo : Transacao → String
  | .Saque _ => "Saque"
  | .Deposito _ => "Deposito"

/-- `Historico.adicionar_transacao` (lines 181-188): appends
`{"tipo": class name, "valor": valor, "data": now}`; `hoje` is the date
component of `datetime.utcnow()` at record time. -/
def Historico.adicionar_transacao (h : Historico) (transacao : Transacao) (hoje : Nat) : Historico :=
  { transacoes := h.transacoes ++ [{ tipo := transacao.tipo, valor := transacao.valor, data := hoje }] }

/-- Python `str.lower()`, embedded as per-character ASCII lowercasing
(the kinds compared by `gerar_relatorio` are the ASCII class names
`"Saque"`/`"Deposito"`). -/
def lower (s : String) : String := ⟨s.data.map Char.toLower⟩

/-- `Historico.gerar_relatorio` (lines 191-194): the generator loop
`for transacao in self._transacoes: if tipo_transacao is None or
transacao["tipo"].lower() == tipo_transacao.lower(): yield transacao`,
embedded as the (finite) list of yielded records. -/
def Historico.gerar_relatorio (h : Historico) (tipo_transacao : Option String) : List Registro :=
  h.transacoes.filter (fun transacao =>
    match tipo_transacao with
    | none => true
    | some tipo => lower transacao.tipo == lower tipo)

/-- `Historico.transacoes_do_dia` (lines 197-204): keeps the records whose
stored date equals `data_atual`, the date component of `datetime.utcnow()`
at call time (passed explicitly). -/
def Historico.transacoes_do_dia (h : Historico) (data_atual : Nat) : List Registro :=
  h.transacoes.filter (fun transacao => data_atual == transacao.data)

/-- `Conta` (lines 67-127): balance, number, branch code and history.
The `cliente` back-reference of `__init__` is omitted (never read by the
core operations). -/
structure Conta where
  saldo : ℚ
  numero : Nat
  agencia : String
  historico : Historico
deriving DecidableEq

/-- `Conta.__init__` / `Conta.nova_conta` (lines 68-78): balance 0,
branch `"0001"`, fresh empty history. -/
def Conta.nova_conta (numero : Nat) : Conta :=
  { saldo := 0, numero := numero, agencia := "0001", historico := { transacoes := [] } }

/-- `Conta.sacar` (lines 101-116).  The source tests
`excedeu_saldo = valor > saldo`, then `elif valor > 0`, and returns
`True` only in the success branch (`False` otherwise); each branch
prints one message. -/
def Conta.sacar (c : Conta) (valor : ℚ) : Bool × String × Conta :=
  if c.saldo < valor then
    (false, msg_saldo_insuficiente, c)
  else if 0 < valor then
    (true, msg_saque_sucesso, { c with saldo := c.saldo - valor })
  else
    (false, msg_valor_invalido, c)

/-- `Conta.depositar` (lines 119-127): succeeds iff `valor > 0`. -/
def Conta.depositar (c : Conta) (valor : ℚ) : Bool × String × Conta :=
  if 0 < valor then
    (true, msg_deposito_sucesso, { c with saldo := c.saldo + valor })
  else
    (false, msg_valor_invalido, c)

/-- `ContaCorrente` (lines 130-159): a `Conta` plus the per-withdrawal
ceiling `limite` (default 500) and the withdrawal-count ceiling
`limite_saques` (default 3, set to 50 by `criar_conta`). -/
structure ContaCorrente extends Conta where
  limite : ℚ
  limite_saques : Nat
deriving DecidableEq

/-- `ContaCorrente.nova_conta` (lines 137-139). -/
def ContaCorrente.nova_conta (numero : Nat) (limite : ℚ) (limite_saques : Nat) : ContaCorrente :=
  { toConta := Conta.nova_conta numero, limite := limite, limite_saques := limite_saques }

/-- `numero_saques` as computed at lines 143-145: the number of records of
the whole history whose `"tipo"` equals `Saque.__name__` (`"Saque"`). -/
def numero_saques (cc : ContaCorrente) : Nat :=
  (cc.toConta.historico.transacoes.filter (fun transacao => transacao.tipo == "Saque")).length

/-- `ContaCorrente.sacar` (lines 142-159): tests
`excedeu_limite = valor > self._limite` first, then
`excedeu_saques = numero_saques >= self._limite_saques`, and only when
both fail delegates to `super().sacar(valor)`. -/
def ContaCorrente.sacar (cc : ContaCorrente) (valor : ℚ) : Bool × String × ContaCorrente :=
  if cc.limite < valor then
    (false, msg_limite_saque, cc)
  else if cc.limite_saques ≤ numero_saques cc then
    (false, msg_max_saques, cc)
  else
    ((Conta.sacar cc.toConta valor).1, (Conta.sacar cc.toConta valor).2.1,
      { cc with toConta := (Conta.sacar cc.toConta valor).2.2 })

/-- A dynamically-dispatched account reference: either a plain `Conta`
or a `ContaCorrente` (the embedding of Python virtual dispatch on
`conta.sacar` / `conta.depositar`). -/
inductive ContaObj where
  | conta (c : Conta)
  | contaCorrente (cc : ContaCorrente)
deriving DecidableEq

/-- `conta.historico` through dispatch. -/
def ContaObj.historico : ContaObj → Historico
  | .conta c => c.historico
  | .contaCorrente cc => cc.toConta.historico

/-- `conta.saldo` through dispatch. -/
def ContaObj.saldo : ContaObj → ℚ
  | .conta c => c.saldo
  | .contaCorrente cc => cc.toConta.saldo

/-- `conta.sacar(valor)` through dispatch: `Conta.sacar` on a base
account, the overriding `ContaCorrente.sacar` on a checking account. -/
def ContaObj.sacar : ContaObj → ℚ → Bool × String × ContaObj
  | .conta c, valor =>
      ((Conta.sacar c valor).1, (Conta.sacar c valor).2.1, .conta (Conta.sacar c valor).2.2)
  | .contaCorrente cc, valor =>
      ((ContaCorrente.sacar cc valor).1, (ContaCorrente.sacar cc valor).2.1,
        .contaCorrente (ContaCorrente.sacar cc valor).2.2)

/-- `conta.depositar(valor)` through dispatch: `ContaCorrente` does not
override `depositar`, so both branches run the inherited
`Conta.depositar` (lines 119-127). -/
def ContaObj.depositar : ContaObj → ℚ → Bool × String × ContaObj
  | .conta c, valor =>
      ((Conta.depositar c valor).1, (Conta.depositar c valor).2.1, .conta (Conta.depositar c valor).2.2)
  | .contaCorrente cc, valor =>
      ((Conta.depositar cc.toConta valor).1, (Conta.depositar cc.toConta valor).2.1,
        .contaCorrente { cc with toConta := (Conta.depositar cc.toConta valor).2.2 })

/-- `conta.historico.adicionar_transacao(self)` through dispatch (the
history lives inside the account state). -/
def ContaObj.adicionar_historico : ContaObj → Transacao → Nat → ContaObj
  | .conta c, transacao, hoje =>
      .conta { c with historico := c.historico.adicionar_transacao transacao hoje }
  | .contaCorrente cc, transacao, hoje =>
      .contaCorrente { cc with toConta :=
        { cc.toConta with historico := cc.toConta.historico.adicionar_transacao transacao hoje } }

/-- The dynamic call performed by `Transacao.registrar`:
`conta.sacar(self.valor)` for a `Saque` (line 228), `conta.depositar(self.valor)`
for a `Deposito` (line 244). -/
def ContaObj.primitivo (conta : ContaObj) : Transacao → Bool × String × ContaObj
  | .Saque valor => conta.sacar valor
  | .Deposito valor => conta.depositar valor

/-- `Saque.registrar` / `Deposito.registrar` (lines 227-231, 243-247):
run the matching primitive, and iff `sucesso_transacao` append the
transaction to the account's history.  Both methods return `None`,
embedded as the `Unit` component. -/
def Transacao.registrar (transacao : Transacao) (hoje : Nat) (conta : ContaObj) : Unit × String × ContaObj :=
  if (conta.primitivo transacao).1 then
    ((), (conta.primitivo transacao).2.1, (conta.primitivo transacao).2.2.adicionar_historico transacao hoje)
  else
    ((), (conta.primitivo transacao).2.1, (conta.primitivo transacao).2.2)

/-- `Cliente` (lines 37-53): address and owned accounts (`indice_conta`
is never used by the core operations and is omitted). -/
structure Cliente where
  endereco : String
  contas : List ContaObj
deriving DecidableEq

/-- `Cliente.realizar_transacao` (lines 44-49): rejects iff
`len(conta.historico.transacoes_do_dia()) >= 2`, else calls
`transacao.registrar(conta)`; returns `None` on every path.  `hoje` is
the current date read by `transacoes_do_dia`. -/
def Cliente.realizar_transacao (self : Cliente) (conta : ContaObj) (transacao : Transacao)
    (hoje : Nat) : Unit × String × ContaObj :=
  if 2 ≤ (conta.historico.transacoes_do_dia hoje).length then
    ((), msg_limite_diario, conta)
  else
    transacao.registrar hoje conta

/-- A finite sequence of direct `deposit`/`withdraw` primitive calls on a
base account (for the balance invariant). -/
def aplicar_ops (c : Conta) : List Transacao → Conta
  | [] => c
  | t :: rest =>
      match t with
      | Transacao.Saque v => aplicar_ops (Conta.sacar c v).2.2 rest
      | Transacao.Deposito v => aplicar_ops (Conta.depositar c v).2.2 rest

end Banco

namespace Banco

/-! ## Shared helper lemmas -/

theorem sacar_saldo_nonneg (c : Conta) (v : ℚ) (h : 0 ≤ c.saldo) :
    0 ≤ (Conta.sacar c v).2.2.saldo := by
  unfold Conta.sacar
  split_ifs with h1 h2
  · simpa using h
  · simpa using sub_nonneg.mpr (not_lt.mp h1)
  · simpa using h

theorem depositar_saldo_nonneg (c : Conta) (v : ℚ) (h : 0 ≤ c.saldo) :
    0 ≤ (Conta.depositar c v).2.2.saldo := by
  unfold Conta.depositar
  split_ifs with h1
  · simpa using add_nonneg h h1.le
  · simpa using h

theorem aplicar_ops_saldo_nonneg (ops : List Transacao) :
    ∀ c : Conta, 0 ≤ c.saldo → 0 ≤ (aplicar_ops c ops).saldo := by
  induction ops with
  | nil => intro c h; simpa [aplicar_ops] using h
  | cons t rest ih =>
      intro c h
      cases t with
      | Saque v => exact ih _ (sacar_saldo_nonneg c v h)
      | Deposito v => exact ih _ (depositar_saldo_nonneg c v h)

/-- A concrete account with balance 5 (used to instantiate universal theorems). -/
def conta_saldo_cinco : Conta := { saldo := 5, numero := 3, agencia := "0001", historico := ⟨[]⟩ }

/-- A concrete account with balance 10 (used to instantiate universal theorems). -/
def conta_saldo_dez : Conta := { saldo := 10, numero := 1, agencia := "0001", historico := ⟨[]⟩ }

/-! ## Claims -/

/-- C1: starting from the initial balance 0, any finite sequence of
`sacar`/`depositar` calls with arbitrary (possibly non-positive) amounts
leaves the balance non-negative; `depositar` changes the balance only
when the amount is positive, and `sacar` changes it only when the amount
is positive and at most the balance. -/
theorem c1_saldo_nunca_negativo :
    (∀ (numero : Nat) (ops : List Transacao),
        0 ≤ (aplicar_ops (Conta.nova_conta numero) ops).saldo)
  ∧ (∀ (c : Conta) (v : ℚ), (Conta.depositar c v).2.2.saldo ≠ c.saldo → 0 < v)
  ∧ (∀ (c : Conta) (v : ℚ),
        (Conta.sacar c v).2.2.saldo ≠ c.saldo → 0 < v ∧ v ≤ c.saldo) := by
  refine ⟨fun numero ops => aplicar_ops_saldo_nonneg ops _ le_rfl, ?_, ?_⟩
  · intro c v hne
    unfold Conta.depositar at hne
    split_ifs at hne with h1
    · exact h1
    · simp at hne
  · intro c v hne
    unfold Conta.sacar at hne
    split_ifs at hne with h1 h2
    · simp at hne
    · exact ⟨h2, not_lt.mp h1⟩
    · simp at hne

/-- C1 witness: concrete runs of the quantified statements. -/
theorem c1_saldo_nunca_negativo_witness :
    (0 ≤ (aplicar_ops (Conta.nova_conta 1)
        [Transacao.Deposito 5, Transacao.Saque 3, Transacao.Saque 10,
         Transacao.Deposito (-2)]).saldo)
  ∧ (0 < (5 : ℚ))
  ∧ (0 < (3 : ℚ) ∧ (3 : ℚ) ≤ conta_saldo_cinco.saldo) :=
  ⟨c1_saldo_nunca_negativo.1 1 _,
   c1_saldo_nunca_negativo.2.1 (Conta.nova_conta 2) 5
     (by norm_num [Conta.depositar, Conta.nova_conta]),
   c1_saldo_nunca_negativo.2.2 conta_saldo_cinco 3
     (by norm_num [Conta.sacar, conta_saldo_cinco])⟩

/-- C2: on an account with non-negative balance, `sacar` reports
insufficient funds iff the amount exceeds the balance, reports an invalid
amount iff the amount is non-positive, succeeds (returning `True` and
decreasing the balance by exactly the amount) iff the amount is positive
and within the balance, and leaves the account unchanged on any failure. -/
theorem c2_contrato_sacar (c : Conta) (v : ℚ) (h : 0 ≤ c.saldo) :
    ((Conta.sacar c v).2.1 = msg_saldo_insuficiente ↔ c.saldo < v)
  ∧ ((Conta.sacar c v).2.1 = msg_valor_invalido ↔ v ≤ 0)
  ∧ ((Conta.sacar c v).1 = true ↔ 0 < v ∧ v ≤ c.saldo)
  ∧ (0 < v → v ≤ c.saldo →
      Conta.sacar c v = (true, msg_saque_sucesso, { c with saldo := c.saldo - v }))
  ∧ ((Conta.sacar c v).1 = false → (Conta.sacar c v).2.2 = c) := by
  have m1 : msg_saque_sucesso ≠ msg_saldo_insuficiente := by decide
  have m2 : msg_saque_sucesso ≠ msg_valor_invalido := by decide
  have m3 : msg_valor_invalido ≠ msg_saldo_insuficiente := by decide
  have m4 : msg_saldo_insuficiente ≠ msg_valor_invalido := by decide
  by_cases h1 : c.saldo < v
  · have he : Conta.sacar c v = (false, msg_saldo_insuficiente, c) := by
      unfold Conta.sacar; rw [if_pos h1]
    refine ⟨iff_of_true (by rw [he]) h1,
      iff_of_false (by rw [he]; exact m4) (fun hv => by linarith),
      iff_of_false (by rw [he]; simp) (fun hv => absurd h1 (not_lt.mpr hv.2)),
      fun hv1 hv2 => absurd h1 (not_lt.mpr hv2),
      fun _ => by rw [he]⟩
  · by_cases h2 : 0 < v
    · have he : Conta.sacar c v = (true, msg_saque_sucesso, { c with saldo := c.saldo - v }) := by
        unfold Conta.sacar; rw [if_neg h1, if_pos h2]
      refine ⟨iff_of_false (by rw [he]; exact m1) h1,
        iff_of_false (by rw [he]; exact m2) (by linarith),
        iff_of_true (by rw [he]) ⟨h2, not_lt.mp h1⟩,
        fun _ _ => he,
        fun hfalse => by rw [he] at hfalse; simp at hfalse⟩
    · have he : Conta.sacar c v = (false, msg_valor_invalido, c) := by
        unfold Conta.sacar; rw [if_neg h1, if_neg h2]
      refine ⟨iff_of_false (by rw [he]; exact m3) h1,
        iff_of_true (by rw [he]) (not_lt.mp h2),
        iff_of_false (by rw [he]; simp) (fun hv => absurd hv.1 h2),
        fun hv1 _ => absurd hv1 h2,
        fun _ => by rw [he]⟩

/-- C2 witness: the contract instantiated on a concrete account. -/
theorem c2_contrato_sacar_witness :
    (((Conta.sacar conta_saldo_dez 4).2.1 = msg_saldo_insuficiente ↔ conta_saldo_dez.saldo < 4)
  ∧ ((Conta.sacar conta_saldo_dez 4).2.1 = msg_valor_invalido ↔ (4 : ℚ) ≤ 0)
  ∧ ((Conta.sacar conta_saldo_dez 4).1 = true ↔ 0 < (4 : ℚ) ∧ (4 : ℚ) ≤ conta_saldo_dez.saldo)
  ∧ (0 < (4 : ℚ) → (4 : ℚ) ≤ conta_saldo_dez.saldo →
      Conta.sacar conta_saldo_dez 4
        = (true, msg_saque_sucesso, { conta_saldo_dez with saldo := conta_saldo_dez.saldo - 4 }))
  ∧ ((Conta.sacar conta_saldo_dez 4).1 = false →
      (Conta.sacar conta_saldo_dez 4).2.2 = conta_saldo_dez)) :=
  c2_contrato_sacar conta_saldo_dez 4 (by norm_num [conta_saldo_dez])

end Banco

namespace Banco

theorem sacar_msg_ne_limite (c : Conta) (v : ℚ) :
    (Conta.sacar c v).2.1 ≠ msg_limite_saque := by
  unfold Conta.sacar
  split_ifs <;> (dsimp only; decide)

theorem sacar_msg_ne_max (c : Conta) (v : ℚ) :
    (Conta.sacar c v).2.1 ≠ msg_max_saques := by
  unfold Conta.sacar
  split_ifs <;> (dsimp only; decide)

/-- C5: `ContaCorrente.sacar` checks the per-withdrawal ceiling first
(failing with the over-ceiling message iff `valor > limite`), then the
all-time withdrawal count (failing with the count message iff the number
of recorded `Saque` records is at least `limite_saques`), and delegates
to the base `Conta.sacar` rule exactly when both checks pass. -/
theorem c5_ordem_verificacoes (cc : ContaCorrente) (v : ℚ) :
    (ContaCorrente.sacar cc v = (false, msg_limite_saque, cc) ↔ cc.limite < v)
  ∧ (v ≤ cc.limite →
      (ContaCorrente.sacar cc v = (false, msg_max_saques, cc) ↔
        cc.limite_saques ≤ numero_saques cc))
  ∧ (v ≤ cc.limite → numero_saques cc < cc.limite_saques →
      ContaCorrente.sacar cc v
        = ((Conta.sacar cc.toConta v).1, (Conta.sacar cc.toConta v).2.1,
            { cc with toConta := (Conta.sacar cc.toConta v).2.2 })) := by
  by_cases hl : cc.limite < v
  · have he : ContaCorrente.sacar cc v = (false, msg_limite_saque, cc) := by
      unfold ContaCorrente.sacar; rw [if_pos hl]
    exact ⟨iff_of_true he hl,
      fun hv => absurd hl (not_lt.mpr hv),
      fun hv _ => absurd hl (not_lt.mpr hv)⟩
  · by_cases hs : cc.limite_saques ≤ numero_saques cc
    · have he : ContaCorrente.sacar cc v = (false, msg_max_saques, cc) := by
        unfold ContaCorrente.sacar; rw [if_neg hl, if_pos hs]
      refine ⟨iff_of_false ?_ hl, fun _ => iff_of_true he hs,
        fun _ hcount => absurd hs (not_le.mpr hcount)⟩
      intro heq
      rw [he] at heq
      have : msg_max_saques = msg_limite_saque := congrArg (fun p => p.2.1) heq
      exact absurd this (by decide)
    · have he : ContaCorrente.sacar cc v
          = ((Conta.sacar cc.toConta v).1, (Conta.sacar cc.toConta v).2.1,
              { cc with toConta := (Conta.sacar cc.toConta v).2.2 }) := by
        unfold ContaCorrente.sacar; rw [if_neg hl, if_neg hs]
      refine ⟨iff_of_false ?_ hl, fun _ => iff_of_false ?_ hs, fun _ _ => he⟩
      · intro heq
        rw [he] at heq
        exact sacar_msg_ne_limite cc.toConta v (congrArg (fun p => p.2.1) heq)
      · intro heq
        rw [he] at heq
        exact sacar_msg_ne_max cc.toConta v (congrArg (fun p => p.2.1) heq)

/-- A withdrawal record (as appended by `adicionar_transacao` for a `Saque`). -/
def registro_saque_um : Registro := { tipo := "Saque", valor := 1, data := 5 }

/-- A checking account with one recorded withdrawal, balance 100, ceiling 500, count ceiling 3. -/
def cc_um_saque : ContaCorrente :=
  { saldo := 100, numero := 4, agencia := "0001", historico := ⟨[registro_saque_um]⟩,
    limite := 500, limite_saques := 3 }

/-- C5 witness: on a concrete checking account below both ceilings the
withdrawal is delegated to the base rule. -/
theorem c5_ordem_verificacoes_witness :
    ContaCorrente.sacar cc_um_saque 50
      = ((Conta.sacar cc_um_saque.toConta 50).1, (Conta.sacar cc_um_saque.toConta 50).2.1,
          { cc_um_saque with toConta := (Conta.sacar cc_um_saque.toConta 50).2.2 }) :=
  (c5_ordem_verificacoes cc_um_saque 50).2.2 (by norm_num [cc_um_saque]) (by decide)

/-- A checking account whose recorded withdrawal count (3) equals its
count ceiling, with ample balance 1000 and amount ceiling 500. -/
def cc_saques_esgotados : ContaCorrente :=
  { saldo := 1000, numero := 6, agencia := "0001",
    historico := ⟨[registro_saque_um, registro_saque_um, registro_saque_um]⟩,
    limite := 500, limite_saques := 3 }

/-- C4 counterexample: on `cc_saques_esgotados` (withdrawal count equal to
the ceiling, balance 1000) the withdrawal of 600 is rejected with the
*over-ceiling* message, not the count-exceeded one — so the claim that the
rejection reason is `WithdrawalCountExceeded` "regardless of the requested
amount" is false. -/
theorem c4_counterexample :
    numero_saques cc_saques_esgotados = cc_saques_esgotados.limite_saques
  ∧ (0 : ℚ) ≤ cc_saques_esgotados.toConta.saldo
  ∧ (ContaCorrente.sacar cc_saques_esgotados 600).2.1 = msg_limite_saque
  ∧ msg_limite_saque ≠ msg_max_saques := by decide

/-- C4 (amended): when the recorded withdrawal count equals the count
ceiling, the next `sacar` fails and leaves balance and history unchanged
regardless of amount and balance; the reported reason is the
count-exceeded message whenever the amount is within the per-withdrawal
ceiling, and the over-ceiling message otherwise. -/
theorem c4_contagem_esgotada (cc : ContaCorrente) (v : ℚ)
    (hcount : numero_saques cc = cc.limite_saques) :
    (ContaCorrente.sacar cc v).1 = false
  ∧ (ContaCorrente.sacar cc v).2.2 = cc
  ∧ (v ≤ cc.limite → (ContaCorrente.sacar cc v).2.1 = msg_max_saques)
  ∧ (cc.limite < v → (ContaCorrente.sacar cc v).2.1 = msg_limite_saque) := by
  have hs : cc.limite_saques ≤ numero_saques cc := hcount.ge
  by_cases hl : cc.limite < v
  · have he : ContaCorrente.sacar cc v = (false, msg_limite_saque, cc) := by
      unfold ContaCorrente.sacar; rw [if_pos hl]
    exact ⟨by rw [he], by rw [he],
      fun hv => absurd hl (not_lt.mpr hv), fun _ => by rw [he]⟩
  · have he : ContaCorrente.sacar cc v = (false, msg_max_saques, cc) := by
      unfold ContaCorrente.sacar; rw [if_neg hl, if_pos hs]
    exact ⟨by rw [he], by rw [he],
      fun _ => by rw [he], fun hv => absurd hv hl⟩

/-- C4 witness: the amended statement on the concrete exhausted account. -/
theorem c4_contagem_esgotada_witness :
    (ContaCorrente.sacar cc_saques_esgotados 100).1 = false
  ∧ (ContaCorrente.sacar cc_saques_esgotados 100).2.2 = cc_saques_esgotados
  ∧ ((100 : ℚ) ≤ cc_saques_esgotados.limite →
      (ContaCorrente.sacar cc_saques_esgotados 100).2.1 = msg_max_saques)
  ∧ (cc_saques_esgotados.limite < 100 →
      (ContaCorrente.sacar cc_saques_esgotados 100).2.1 = msg_limite_saque) :=
  c4_contagem_esgotada cc_saques_esgotados 100 (by decide)

/-- A checking account with ceiling 0, count ceiling 0 and three recorded
withdrawals: every withdrawal-side restriction is active. -/
def cc_tudo_esgotado : ContaCorrente :=
  { saldo := 2, numero := 8, agencia := "0001",
    historico := ⟨[registro_saque_um, registro_saque_um, registro_saque_um]⟩,
    limite := 0, limite_saques := 0 }

/-- C8: `depositar` on a checking account is the inherited `Conta`
primitive: for any positive amount it succeeds with the deposit message
and increases the balance by exactly the amount, whatever the ceilings
and the recorded withdrawals. -/
theorem c8_deposito_ignora_limites (cc : ContaCorrente) (v : ℚ) (h : 0 < v) :
    ContaObj.depositar (.contaCorrente cc) v
      = (true, msg_deposito_sucesso,
          .contaCorrente { cc with toConta := { cc.toConta with saldo := cc.toConta.saldo + v } }) := by
  simp only [ContaObj.depositar, Conta.depositar, if_pos h]

/-- C8 witness: a deposit of 7 succeeds on an account whose withdrawal
ceilings are all exhausted. -/
theorem c8_deposito_ignora_limites_witness :
    ContaObj.depositar (.contaCorrente cc_tudo_esgotado) 7
      = (true, msg_deposito_sucesso,
          .contaCorrente { cc_tudo_esgotado with toConta :=
            { cc_tudo_esgotado.toConta with saldo := cc_tudo_esgotado.toConta.saldo + 7 } }) :=
  c8_deposito_ignora_limites cc_tudo_esgotado 7 (by norm_num)

end Banco

namespace Banco

theorem sacar_historico (c : Conta) (v : ℚ) :
    (Conta.sacar c v).2.2.historico = c.historico := by
  unfold Conta.sacar
  split_ifs <;> rfl

theorem depositar_historico (c : Conta) (v : ℚ) :
    (Conta.depositar c v).2.2.historico = c.historico := by
  unfold Conta.depositar
  split_ifs <;> rfl

theorem cc_sacar_historico (cc : ContaCorrente) (v : ℚ) :
    (ContaCorrente.sacar cc v).2.2.toConta.historico = cc.toConta.historico := by
  unfold ContaCorrente.sacar
  split_ifs <;> dsimp only
  exact sacar_historico cc.toConta v

theorem primitivo_historico (a : ContaObj) (t : Transacao) :
    ((a.primitivo t).2.2).historico = a.historico := by
  cases t with
  | Saque v =>
      cases a with
      | conta c => exact sacar_historico c v
      | contaCorrente cc => exact cc_sacar_historico cc v
  | Deposito v =>
      cases a with
      | conta c => exact depositar_historico c v
      | contaCorrente cc => exact depositar_historico cc.toConta v

theorem sacar_false_unchanged (c : Conta) (v : ℚ) :
    (Conta.sacar c v).1 = false → (Conta.sacar c v).2.2 = c := by
  unfold Conta.sacar
  split_ifs <;> intro h
  · rfl
  · simp at h
  · rfl

theorem depositar_false_unchanged (c : Conta) (v : ℚ) :
    (Conta.depositar c v).1 = false → (Conta.depositar c v).2.2 = c := by
  unfold Conta.depositar
  split_ifs <;> intro h
  · simp at h
  · rfl

theorem cc_sacar_false_unchanged (cc : ContaCorrente) (v : ℚ) :
    (ContaCorrente.sacar cc v).1 = false → (ContaCorrente.sacar cc v).2.2 = cc := by
  unfold ContaCorrente.sacar
  split_ifs <;> intro h
  · rfl
  · rfl
  · dsimp only at h ⊢
    rw [sacar_false_unchanged cc.toConta v h]

theorem primitivo_false_unchanged (a : ContaObj) (t : Transacao) :
    (a.primitivo t).1 = false → (a.primitivo t).2.2 = a := by
  cases t with
  | Saque v =>
      cases a with
      | conta c =>
          intro h
          dsimp only [ContaObj.primitivo, ContaObj.sacar] at h ⊢
          rw [sacar_false_unchanged c v h]
      | contaCorrente cc =>
          intro h
          dsimp only [ContaObj.primitivo, ContaObj.sacar] at h ⊢
          rw [cc_sacar_false_unchanged cc v h]
  | Deposito v =>
      cases a with
      | conta c =>
          intro h
          dsimp only [ContaObj.primitivo, ContaObj.depositar] at h ⊢
          rw [depositar_false_unchanged c v h]
      | contaCorrente cc =>
          intro h
          dsimp only [ContaObj.primitivo, ContaObj.depositar] at h ⊢
          rw [depositar_false_unchanged cc.toConta v h]

theorem adicionar_historico_transacoes (a : ContaObj) (t : Transacao) (hoje : Nat) :
    (a.adicionar_historico t hoje).historico.transacoes
      = a.historico.transacoes ++ [{ tipo := t.tipo, valor := t.valor, data := hoje }] := by
  cases a <;> rfl

/-- C6: `registrar` appends exactly one record — with the transaction's
kind tag and amount, stamped with the current day — to the account's
history iff the matching primitive reports success; iff the primitive
fails, the whole account (history included) is left untouched. -/
theorem c6_ida_e_volta (t : Transacao) (hoje : Nat) (a : ContaObj) :
    ((a.primitivo t).1 = true →
        (t.registrar hoje a).2.2.historico.transacoes
          = a.historico.transacoes ++ [{ tipo := t.tipo, valor := t.valor, data := hoje }])
  ∧ ((a.primitivo t).1 = false → (t.registrar hoje a).2.2 = a) := by
  constructor
  · intro hs
    unfold Transacao.registrar
    rw [if_pos hs]
    dsimp only
    rw [adicionar_historico_transacoes]
    rw [primitivo_historico]
  · intro hf
    unfold Transacao.registrar
    rw [if_neg (by rw [hf]; simp)]
    dsimp only
    exact primitivo_false_unchanged a t hf

/-- A fresh base-account object. -/
def conta_obj_c6 : ContaObj := .conta (Conta.nova_conta 11)

/-- C6 witness: a deposit of 10 on a fresh account succeeds and appends
one matching record; a deposit of 0 fails and leaves the account as it was. -/
theorem c6_ida_e_volta_witness :
    (Transacao.registrar (Transacao.Deposito 10) 7 conta_obj_c6).2.2.historico.transacoes
      = conta_obj_c6.historico.transacoes
          ++ [{ tipo := (Transacao.Deposito 10).tipo, valor := (Transacao.Deposito 10).valor, data := 7 }]
  ∧ (Transacao.registrar (Transacao.Deposito 0) 7 conta_obj_c6).2.2 = conta_obj_c6 :=
  ⟨(c6_ida_e_volta (Transacao.Deposito 10) 7 conta_obj_c6).1 (by decide),
   (c6_ida_e_volta (Transacao.Deposito 0) 7 conta_obj_c6).2 (by decide)⟩

/-- C7: `gerar_relatorio` with no filter returns all records in insertion
order; with a filter it returns, still in insertion order (a sublist of
the history), exactly the records whose kind matches the filter
case-insensitively; and the result is a finite list depending only on
the history and the filter — two filters equal up to letter case yield
the same report. -/
theorem c7_relatorio (h : Historico) (k : String) :
    h.gerar_relatorio none = h.transacoes
  ∧ h.gerar_relatorio (some k)
      = h.transacoes.filter (fun r => lower r.tipo == lower k)
  ∧ (h.gerar_relatorio (some k)).Sublist h.transacoes
  ∧ (∀ k2 : String, lower k = lower k2 →
        h.gerar_relatorio (some k) = h.gerar_relatorio (some k2)) := by
  refine ⟨?_, rfl, List.filter_sublist _, ?_⟩
  · unfold Historico.gerar_relatorio
    simp
  · intro k2 hk
    unfold Historico.gerar_relatorio
    simp only [hk]

/-- A history with two kinds of records across two days. -/
def historico_c7 : Historico := ⟨[⟨"Deposito", 100, 7⟩, ⟨"Saque", 30, 7⟩, ⟨"Deposito", 5, 8⟩]⟩

/-- C7 witness: the case-insensitivity clause at the filters `"saque"` and `"SAQUE"`. -/
theorem c7_relatorio_witness :
    historico_c7.gerar_relatorio (some "saque") = historico_c7.gerar_relatorio (some "SAQUE") :=
  (c7_relatorio historico_c7 "saque").2.2.2 "SAQUE" (by decide)

end Banco

namespace Banco

/-- A fresh checking-account object A as `criar_conta` builds it
(ceiling 500, count ceiling 50). -/
def cc_nova_a : ContaObj := .contaCorrente (ContaCorrente.nova_conta 1 500 50)

/-- A second fresh checking-account object B of the same customer. -/
def cc_nova_b : ContaObj := .contaCorrente (ContaCorrente.nova_conta 2 500 50)

/-- The customer owning accounts A and B, before any operation. -/
def cliente_c3_inicial : Cliente := { endereco := "Rua 1", contas := [cc_nova_a, cc_nova_b] }

/-- Account A after one deposit performed through `realizar_transacao` on day 7. -/
def conta_a_um_op : ContaObj :=
  (cliente_c3_inicial.realizar_transacao cc_nova_a (Transacao.Deposito 100) 7).2.2

/-- Account A after the customer completed two operations today (day 7). -/
def conta_a_dois_ops : ContaObj :=
  (cliente_c3_inicial.realizar_transacao conta_a_um_op (Transacao.Deposito 50) 7).2.2

/-- The customer after the two operations of day 7 on account A. -/
def cliente_c3 : Cliente := { endereco := "Rua 1", contas := [conta_a_dois_ops, cc_nova_b] }

/-- C3 counterexample: customer `cliente_c3` has already completed two
operations today (day 7), both on their account A; a third operation of
the day, on their account B, is *not* rejected: the deposit is invoked,
prints the success message (not the daily-limit one), appends a record to
B's history and changes B's balance.  The daily counter of
`realizar_transacao` is therefore per target account, not "2 operations
today on any of the customer's accounts". -/
theorem c3_counterexample :
    (conta_a_dois_ops.historico.transacoes_do_dia 7).length = 2
  ∧ cliente_c3.contas = [conta_a_dois_ops, cc_nova_b]
  ∧ (cliente_c3.realizar_transacao cc_nova_b (Transacao.Deposito 10) 7).2.1 = msg_deposito_sucesso
  ∧ msg_deposito_sucesso ≠ msg_limite_diario
  ∧ (cliente_c3.realizar_transacao cc_nova_b (Transacao.Deposito 10) 7).2.2.historico.transacoes.length
      = cc_nova_b.historico.transacoes.length + 1
  ∧ (cliente_c3.realizar_transacao cc_nova_b (Transacao.Deposito 10) 7).2.2.saldo = 10 := by
  refine ⟨by decide, rfl, by decide, by decide, by decide, ?_⟩
  norm_num [cliente_c3, cc_nova_b, ContaCorrente.nova_conta, Conta.nova_conta,
    Cliente.realizar_transacao, Historico.transacoes_do_dia, Transacao.registrar,
    ContaObj.primitivo, ContaObj.depositar, Conta.depositar, ContaObj.historico,
    ContaObj.adicionar_historico, Historico.adicionar_transacao, Transacao.tipo,
    Transacao.valor, ContaObj.saldo]

/-- C3 (amended): the daily cap of `realizar_transacao` counts the records
dated today in the *target account's* history: with two or more such
records the operation is rejected with the daily-limit message and the
account is returned untouched (the transaction is not invoked); with
fewer than two it is delegated to `transacao.registrar`; and on a new
calendar day (no record dated `hoje`) the count restarts at zero, so the
operation is delegated. -/
theorem c3_limite_diario_por_conta (self : Cliente) (conta : ContaObj) (t : Transacao) (hoje : Nat) :
    (2 ≤ (conta.historico.transacoes_do_dia hoje).length →
        Cliente.realizar_transacao self conta t hoje = ((), msg_limite_diario, conta))
  ∧ ((conta.historico.transacoes_do_dia hoje).length < 2 →
        Cliente.realizar_transacao self conta t hoje = t.registrar hoje conta)
  ∧ ((∀ r ∈ conta.historico.transacoes, r.data ≠ hoje) →
        Cliente.realizar_transacao self conta t hoje = t.registrar hoje conta) := by
  refine ⟨?_, ?_, ?_⟩
  · intro hge
    unfold Cliente.realizar_transacao
    rw [if_pos hge]
  · intro hlt
    unfold Cliente.realizar_transacao
    rw [if_neg (not_le.mpr hlt)]
  · intro hnone
    have hempty : conta.historico.transacoes_do_dia hoje = [] := by
      unfold Historico.transacoes_do_dia
      rw [List.filter_eq_nil_iff]
      intro r hr
      simp only [beq_iff_eq]
      exact fun hh => hnone r hr hh.symm
    unfold Cliente.realizar_transacao
    rw [hempty]
    simp

/-- C3 witness: on the account that already has two records of day 7 the
third operation of the day is rejected unchanged, and on day 9 (a new
day) the same account is delegated again. -/
theorem c3_limite_diario_por_conta_witness :
    (Cliente.realizar_transacao cliente_c3 conta_a_dois_ops (Transacao.Deposito 10) 7
        = ((), msg_limite_diario, conta_a_dois_ops))
  ∧ (Cliente.realizar_transacao cliente_c3 conta_a_dois_ops (Transacao.Deposito 10) 9
        = (Transacao.Deposito 10).registrar 9 conta_a_dois_ops) :=
  ⟨(c3_limite_diario_por_conta cliente_c3 conta_a_dois_ops (Transacao.Deposito 10) 7).1 (by decide),
   (c3_limite_diario_por_conta cliente_c3 conta_a_dois_ops (Transacao.Deposito 10) 9).2.2 (by decide)⟩

/-- C9: whenever the target account's history already holds two or more
records dated today, `realizar_transacao` rejects with the daily-limit
message and returns the account unchanged, whatever the transaction —
including amounts that are non-positive, above the balance or above a
withdrawal ceiling — so no other failure reason is ever reported for
such an operation. -/
theorem c9_limite_diario_tem_precedencia (self : Cliente) (conta : ContaObj) (t : Transacao)
    (hoje : Nat) (h : 2 ≤ (conta.historico.transacoes_do_dia hoje).length) :
    Cliente.realizar_transacao self conta t hoje = ((), msg_limite_diario, conta) := by
  unfold Cliente.realizar_transacao
  rw [if_pos h]

/-- A deposit record of day 3. -/
def registro_dia3_dep : Registro := { tipo := "Deposito", valor := 5, data := 3 }

/-- A withdrawal record of day 3. -/
def registro_dia3_saq : Registro := { tipo := "Saque", valor := 2, data := 3 }

/-- The underlying account state for `conta_c9`: two records dated day 3. -/
def conta_c9_base : Conta :=
  { saldo := 3, numero := 9, agencia := "0001",
    historico := ⟨[registro_dia3_dep, registro_dia3_saq]⟩ }

/-- A checking account with two records dated day 3 and tight ceilings. -/
def conta_c9 : ContaObj :=
  .contaCorrente { toConta := conta_c9_base, limite := 1, limite_saques := 1 }

/-- The customer owning `conta_c9`. -/
def cliente_c9 : Cliente := { endereco := "Rua 9", contas := [conta_c9] }

/-- C9 witness: a withdrawal of −5 (an invalid amount that would also
exceed the ceiling) on day 3 is rejected with the daily-limit message
only, the account unchanged. -/
theorem c9_limite_diario_tem_precedencia_witness :
    Cliente.realizar_transacao cliente_c9 conta_c9 (Transacao.Saque (-5)) 3
      = ((), msg_limite_diario, conta_c9) :=
  c9_limite_diario_tem_precedencia cliente_c9 conta_c9 (Transacao.Saque (-5)) 3 (by decide)

/-- A fresh base-account object for the C10 observations. -/
def conta_obj_c10 : ContaObj := .conta (Conta.nova_conta 12)

/-- C10: `registrar` and `realizar_transacao` return `None` (embedded as
`Unit`) on every path, acceptance and rejection alike, so callers get no
machine-readable success/failure result; the outcome shows only in the
state and the printed message — concretely, a successful deposit changes
the history while a failed one returns the account exactly as it was,
both with the same `Unit` return value. -/
theorem c10_retorno_sempre_none :
    (∀ (t : Transacao) (hoje : Nat) (a : ContaObj), (t.registrar hoje a).1 = ())
  ∧ (∀ (self : Cliente) (conta : ContaObj) (t : Transacao) (hoje : Nat),
        (Cliente.realizar_transacao self conta t hoje).1 = ())
  ∧ (Transacao.registrar (Transacao.Deposito 10) 7 conta_obj_c10).2.2.historico
      ≠ conta_obj_c10.historico
  ∧ (Transacao.registrar (Transacao.Deposito 0) 7 conta_obj_c10).2.2 = conta_obj_c10 :=
  ⟨fun _ _ _ => rfl, fun _ _ _ _ => rfl, by decide, by decide⟩

end Banco
